import Mathlib

/-!
Verification development for the smart-term CLI tool.

The Python sources are shallowly embedded: pure string manipulation is
modelled over `String` / `List Char` with structural recursion, filesystem
and environment lookups become explicit parameters, and raised exceptions
become `Option` / `Except` values.  Python string operations (`str.lower`,
`str.split`, `in`, `str.join`, `str.strip`, `str.replace`) are re-implemented
for ASCII data so that every definition evaluates inside the kernel.
-/

namespace SmartTerm

set_option maxRecDepth 8192

/-! ## Python string primitives -/

/-- ASCII lowercasing of one character, the effect of Python `str.lower`
on ASCII input (the flag tables only hold ASCII strings). -/
def lowerChar (c : Char) : Char :=
  if 'A' ≤ c ∧ c ≤ 'Z' then Char.ofNat (c.toNat + 32) else c

/-- Python `s.lower()` for ASCII strings. -/
def pyLower (s : String) : String :=
  ⟨s.data.map lowerChar⟩

/-- The characters Python `str.strip` / `\s` treat as whitespace. -/
def isPySpace (c : Char) : Bool :=
  c = ' ' ∨ c = '\t' ∨ c = '\n' ∨ c = '\r' ∨ c = '\x0b' ∨ c = '\x0c'

/-- Python `s.strip()` over a character list. -/
def pyStripL (l : List Char) : List Char :=
  ((l.dropWhile isPySpace).reverse.dropWhile isPySpace).reverse

/-- Python `s.strip()`. -/
def pyStrip (s : String) : String :=
  ⟨pyStripL s.data⟩

/-- Locate the leftmost occurrence of `sep` in a character list, returning
the part before it and the part after it.  `none` when `sep` does not
occur.  This is the engine behind the models of Python `in`, `str.split`
and subscripting split results. -/
def findSplit (sep : List Char) : List Char → Option (List Char × List Char)
  | [] => none
  | c :: rest =>
    if sep.isPrefixOf (c :: rest) then some ([], (c :: rest).drop sep.length)
    else
      match findSplit sep rest with
      | some (pre, post) => some (c :: pre, post)
      | none => none

/-- Python `sub in s` for a nonempty ASCII separator (`"" in s` is `True`). -/
def pyContains (s sub : String) : Bool :=
  if sub.data.isEmpty then true else (findSplit sub.data s.data).isSome

/-- Python `s.split(sep, 1)` unpacked into exactly two names: `none` models
the `ValueError` raised when `sep` does not occur. -/
def pySplit1 (s sep : String) : Option (String × String) :=
  (findSplit sep.data s.data).map fun p => (⟨p.1⟩, ⟨p.2⟩)

/-- `s.split(sep)[0]`: the text before the first occurrence of `sep`,
or all of `s` when `sep` does not occur. -/
def pySplitPart0 (s sep : String) : String :=
  match findSplit sep.data s.data with
  | some (pre, _) => ⟨pre⟩
  | none => s

/-- `s.split(sep)[1]`: the text between the first and second occurrences of
`sep` (or everything after the first occurrence when there is no second);
`none` when `sep` does not occur at all. -/
def pySplitPart1 (s sep : String) : Option String :=
  match findSplit sep.data s.data with
  | none => none
  | some (_, post) =>
    match findSplit sep.data post with
    | some (pre2, _) => some ⟨pre2⟩
    | none => some ⟨post⟩

/-- Python `s.split(c)` for a single-character separator. -/
def splitChar (sep : Char) : List Char → List (List Char)
  | [] => [[]]
  | c :: rest =>
    if c = sep then [] :: splitChar sep rest
    else
      match splitChar sep rest with
      | [] => [[c]]
      | t :: ts => (c :: t) :: ts

/-- Auxiliary for `replaceAll`: the `Nat` argument counts characters of an
already-matched pattern occurrence that remain to be skipped. -/
def replaceAllAux (pat repl : List Char) : List Char → Nat → List Char
  | [], _ => []
  | _ :: rest, Nat.succ n => replaceAllAux pat repl rest n
  | c :: rest, 0 =>
    if pat ≠ [] ∧ pat.isPrefixOf (c :: rest) then
      repl ++ replaceAllAux pat repl rest (pat.length - 1)
    else
      c :: replaceAllAux pat repl rest 0

/-- Python `s.replace(pat, repl)` (leftmost, non-overlapping) for a
nonempty pattern. -/
def replaceAll (pat repl l : List Char) : List Char :=
  replaceAllAux pat repl l 0

/-- Auxiliary for `countOccurrences`, with the same skip counter as
`replaceAllAux`. -/
def countOccurAux (sub : List Char) : List Char → Nat → Nat
  | [], _ => 0
  | _ :: rest, Nat.succ n => countOccurAux sub rest n
  | c :: rest, 0 =>
    if sub ≠ [] ∧ sub.isPrefixOf (c :: rest) then
      1 + countOccurAux sub rest (sub.length - 1)
    else
      countOccurAux sub rest 0

/-- The number of non-overlapping occurrences of `sub` in `s`
(Python `s.count(sub)` for nonempty `sub`). -/
def countOccurrences (s sub : String) : Nat :=
  countOccurAux sub.data s.data 0

/-- Python `sep.join(parts)`. -/
def joinWith (sep : String) : List String → String
  | [] => ""
  | [x] => x
  | x :: y :: ys => x ++ sep ++ joinWith sep (y :: ys)

/-! ## Argument Interpreter — `smart_term/cli/parser.py` -/

/-- The result of `ArgumentParser.parse` (`smart_term/cli/models.py`,
`ParsedArguments`).  The `flags` dictionary of the source is always the
empty dictionary and is omitted. -/
structure ParsedArguments where
  query : String
  file_path : Option String
  model : String
  provider : String
  show_sources : Bool
deriving DecidableEq, Repr

/-- `ArgumentParser.MODEL_FLAGS`. -/
def MODEL_FLAGS : List (String × String) :=
  [("--s", "sonar"),
   ("--p", "sonar-pro"),
   ("--r", "sonar-reasoning-pro"),
   ("--deep", "sonar-deep-research")]

/-- Dictionary lookup in `MODEL_FLAGS`. -/
def modelFlagLookup (s : String) : Option String :=
  (MODEL_FLAGS.find? (fun kv => kv.1 == s)).map (fun kv => kv.2)

/-- The accepted `--show-sources` spellings of
`ArgumentParser.extract_sources_flag`. -/
def SOURCE_FLAGS : List String :=
  ["--show-sources", "--show-source", "--show-s"]

/-- `ArgumentParser.detect_file_path`.  `expand` models
`os.path.expanduser` and `isFile` models `os.path.isfile`; both are
environment parameters of the embedding. -/
def detect_file_path (expand : String → String) (isFile : String → Bool) :
    List String → Option String × List String
  | [] => (none, [])
  | a :: rest =>
    if isFile (expand a) then (some (expand a), rest) else (none, a :: rest)

/-- The loop of `ArgumentParser.extract_model_flag`: state is
`(model, remaining_args, found_flags)`.  The warning printed for unknown
flag-shaped tokens does not change the state and is not tracked. -/
def emfLoop (model : Option String) (remaining found : List String) :
    List String → Option String × List String × List String
  | [] => (model, remaining, found)
  | arg :: rest =>
    match modelFlagLookup (pyLower arg) with
    | some m => emfLoop (some m) remaining (found ++ [pyLower arg]) rest
    | none => emfLoop model (remaining ++ [arg]) found rest

/-- `ArgumentParser.extract_model_flag`, returning
`(model, remaining_args, found_flags)`. -/
def extract_model_flag (args : List String) :
    Option String × List String × List String :=
  emfLoop none [] [] args

/-- The text of the multiple-model-flags warning printed to standard
error by `extract_model_flag`. -/
def multiFlagWarnText (found : List String) : String :=
  "⚠ Warning: Multiple model flags provided (" ++ joinWith ", " found ++
    "). Using the last one: " ++ found.getLastD ""

/-- The warning surfaced by `extract_model_flag`: emitted exactly when
more than one model flag was found. -/
def multiFlagWarning (found : List String) : Option String :=
  if 2 ≤ found.length then some (multiFlagWarnText found) else none

/-- The loop of `ArgumentParser.extract_sources_flag`. -/
def esfLoop (srcFlag : Bool) (remaining : List String) :
    List String → Bool × List String
  | [] => (srcFlag, remaining)
  | arg :: rest =>
    if SOURCE_FLAGS.contains (pyLower arg) then esfLoop true remaining rest
    else esfLoop srcFlag (remaining ++ [arg]) rest

/-- `ArgumentParser.extract_sources_flag`. -/
def extract_sources_flag (args : List String) : Bool × List String :=
  esfLoop false [] args

/-- `ArgumentParser.build_query`. -/
def build_query (args : List String) : String :=
  joinWith " " args

/-- `ArgumentParser.parse`, with the constructor defaults
`default_model` / `default_provider` made explicit. -/
def parse (expand : String → String) (isFile : String → Bool)
    (default_model default_provider : String) (args : List String) :
    ParsedArguments :=
  let fp := detect_file_path expand isFile args
  let mf := extract_model_flag fp.2
  let sf := extract_sources_flag mf.2.1
  { query := build_query sf.2
    file_path := fp.1
    model := match mf.1 with | some m => m | none => default_model
    provider := default_provider
    show_sources := sf.1 }

/-! ## Response Renderer — `smart_term/output/formatter.py`

Colours, panel titles and Rich markup are presentation details and are not
modelled; what is modelled is which text becomes the body of the response
panel, whether a citations panel is rendered, and what its entries are. -/

/-- The sentinel separating the clean answer from the cited answer. -/
def WITH_CITATIONS_MARKER : String := "__WITH_CITATIONS__"

/-- The sentinel separating an answer body from its citations list. -/
def CITATIONS_MARKER : String := "__CITATIONS__"

/-- One entry of the rendered citations panel: either a clickable
shortened link or a verbatim line. -/
inductive CitationItem where
  | link (number shortUrl fullUrl : String)
  | raw (line : String)
deriving DecidableEq, Repr

/-- The observable outcome of `OutputFormatter.display_response`:
the markdown body shown in the response panel, its title and border
style, and, when rendered, the entries of the citations panel. -/
structure RenderedResponse where
  body : String
  panelTitle : String
  borderColor : String
  citationsFrame : Option (List CitationItem)
deriving DecidableEq, Repr

/-- The `model_colors` table of `display_response` with its
`.get(model, 'green')` default. -/
def modelColor (model : String) : String :=
  match [("sonar", "cyan"), ("sonar-pro", "magenta"),
         ("sonar-reasoning-pro", "yellow"),
         ("sonar-deep-research", "blue")].find? (fun kv => kv.1 == model) with
  | some kv => kv.2
  | none => "green"

/-- Match one concrete URL scheme followed by at least one non-space
character, returning the whole matched run. -/
def trySchemeMatch (scheme l : List Char) : Option (List Char) :=
  if scheme.isPrefixOf l then
    let body := (l.drop scheme.length).takeWhile (fun c => !isPySpace c)
    if body.isEmpty then none else some (scheme ++ body)
  else none

/-- The `https?://[^\s]+` part of the citation-line pattern: the optional
`s` is tried greedily first, as the regular-expression engine does. -/
def urlMatch (l : List Char) : Option (List Char) :=
  match trySchemeMatch ('h' :: 't' :: 't' :: 'p' :: 's' :: ':' :: '/' :: '/' :: []) l with
  | some u => some u
  | none => trySchemeMatch ('h' :: 't' :: 't' :: 'p' :: ':' :: '/' :: '/' :: []) l

/-- The regular-expression match
`re.match(r'(\[\d+\])\s+(https?://[^\s]+)', line)` of
`_make_urls_clickable`, returning the two groups `(number, url)`. -/
def matchCitationLine (line : String) : Option (String × String) :=
  match line.data with
  | '[' :: r1 =>
    let ds := r1.takeWhile Char.isDigit
    let r2 := r1.dropWhile Char.isDigit
    if ds.isEmpty then none
    else
      match r2 with
      | ']' :: r3 =>
        let sp := r3.takeWhile isPySpace
        let r4 := r3.dropWhile isPySpace
        if sp.isEmpty then none
        else
          match urlMatch r4 with
          | some url => some (⟨'[' :: (ds ++ [']'])⟩, ⟨url⟩)
          | none => none
      | _ => none
  | _ => none

/-- The URL-shortening block of `_make_urls_clickable`: `urlparse`, the
`www.` removal, the first path segment, and the 60-character cap. -/
def shortenUrl (url : String) : String :=
  let httpsScheme : List Char := 'h' :: 't' :: 't' :: 'p' :: 's' :: ':' :: '/' :: '/' :: []
  let httpScheme : List Char := 'h' :: 't' :: 't' :: 'p' :: ':' :: '/' :: '/' :: []
  let afterScheme :=
    if httpsScheme.isPrefixOf url.data then url.data.drop 8
    else if httpScheme.isPrefixOf url.data then url.data.drop 7
    else url.data
  let netloc := afterScheme.takeWhile (fun c => c ≠ '/' ∧ c ≠ '?' ∧ c ≠ '#')
  let afterNet := afterScheme.dropWhile (fun c => c ≠ '/' ∧ c ≠ '?' ∧ c ≠ '#')
  let path := afterNet.takeWhile (fun c => c ≠ '?' ∧ c ≠ '#')
  let domain := replaceAll ('w' :: 'w' :: 'w' :: '.' :: []) [] netloc
  let pathParts := (splitChar '/' path).filter (fun p => !p.isEmpty)
  let firstPart := pathParts.headD []
  let shortUrl :=
    if !firstPart.isEmpty then domain ++ '/' :: firstPart else domain
  if 60 < shortUrl.length then ⟨shortUrl.take 57 ++ ('.' :: '.' :: '.' :: [])⟩
  else ⟨shortUrl⟩

/-- The per-line body of the loop of `_make_urls_clickable`: marker lines
are skipped, matched lines become shortened clickable links, other
non-blank lines pass through verbatim. -/
def renderCitationLine (lineChars : List Char) : Option CitationItem :=
  if ('_' :: '_' :: []).isPrefixOf lineChars then none
  else
    match matchCitationLine ⟨lineChars⟩ with
    | some (number, url) => some (.link number (shortenUrl url) url)
    | none =>
      if (pyStripL lineChars).isEmpty then none else some (.raw ⟨lineChars⟩)

/-- `OutputFormatter._make_urls_clickable`, as the list of rendered
citation entries. -/
def make_urls_clickable (citations : String) : List CitationItem :=
  (splitChar '\n' citations.data).filterMap renderCitationLine

/-- `OutputFormatter.display_response`.  `none` models the uncaught
`ValueError` raised when a chosen segment is unpacked against
`__CITATIONS__` although the marker does not occur in it. -/
def display_response (response model : String) (show_sources : Bool) :
    Option RenderedResponse :=
  if pyContains response CITATIONS_MARKER then
    if pyContains response WITH_CITATIONS_MARKER then
      let clean_part := pySplitPart0 response WITH_CITATIONS_MARKER
      let with_citations_part :=
        (pySplitPart1 response WITH_CITATIONS_MARKER).getD clean_part
      let chosen := if show_sources then with_citations_part else clean_part
      match pySplit1 chosen CITATIONS_MARKER with
      | none => none
      | some (main_response, citations_section) =>
        some { body := pyStrip main_response
               panelTitle := "Response from " ++ model
               borderColor := modelColor model
               citationsFrame :=
                 if show_sources then
                   some (make_urls_clickable (pyStrip citations_section))
                 else none }
    else
      match pySplit1 response CITATIONS_MARKER with
      | none => none
      | some (main_response, citations_section) =>
        some { body := pyStrip main_response
               panelTitle := "Response from " ++ model
               borderColor := modelColor model
               citationsFrame :=
                 if show_sources then
                   some (make_urls_clickable (pyStrip citations_section))
                 else none }
  else
    some { body := response
           panelTitle := "Response from " ++ model
           borderColor := modelColor model
           citationsFrame := none }

/-- The call site `formatter.display_response(response, parsed_args.model)`
at `smart_term/main.py:168`: the `show_sources` argument is omitted, so the
default `False` of the formatter is used regardless of the parsed flag. -/
def displayResponseFromMain (response model : String) : Option RenderedResponse :=
  display_response response model false

/-! ## File Ingestor — `smart_term/files/handler.py`, `pdf_reader.py` -/

/-- The error taxonomy of file reading (`smart_term/utils/errors.py`
kinds raised by `FileHandler`), each carrying its message. -/
inductive FileError where
  | fileNotFound (msg : String)
  | fileSizeExceeded (msg : String)
  | unsupportedFileType (msg : String)
deriving DecidableEq, Repr

/-- `FileHandler.SUPPORTED_EXTENSIONS`. -/
def SUPPORTED_EXTENSIONS : List (String × String) :=
  [(".txt", "text"), (".md", "text"), (".py", "text"), (".js", "text"),
   (".json", "text"), (".yaml", "text"), (".yml", "text"), (".sh", "text"),
   (".html", "text"), (".css", "text"), (".xml", "text"), (".csv", "text"),
   (".log", "text"), (".ini", "text"), (".cfg", "text"), (".conf", "text"),
   (".rs", "text"), (".go", "text"), (".java", "text"), (".cpp", "text"),
   (".c", "text"), (".h", "text"), (".ts", "text"), (".tsx", "text"),
   (".jsx", "text"), (".pdf", "pdf"), (".png", "image"), (".jpg", "image"),
   (".jpeg", "image"), (".gif", "image"), (".webp", "image"), (".bmp", "image")]

/-- Insertion into a sorted list of strings, for the model of Python
`sorted`. -/
def insertSorted (x : String) : List String → List String
  | [] => [x]
  | y :: ys => if x ≤ y then x :: y :: ys else y :: insertSorted x ys

/-- Python `sorted` on strings (codepoint-lexicographic). -/
def sortStrings : List String → List String
  | [] => []
  | x :: xs => insertSorted x (sortStrings xs)

/-- The `', '.join(sorted(set(...)))` listing of the supported
extensions in the `UnsupportedFileTypeError` message. -/
def supportedTypesListing : String :=
  joinWith ", " (sortStrings ((SUPPORTED_EXTENSIONS.map (fun kv => kv.1)).eraseDups))

/-- The last `/`-separated component of a path
(`pathlib.PurePath.name` for the simple paths in scope). -/
def pathFinalComponent (p : String) : List Char :=
  (splitChar '/' p.data).getLastD []

/-- The index of the last `.` in a character list (`str.rfind('.')`). -/
def lastDotIdx (l : List Char) : Option Nat :=
  match l.reverse.findIdx? (fun c => c = '.') with
  | some j => some (l.length - 1 - j)
  | none => none

/-- `pathlib.PurePath.suffix`: the extension of the final component,
empty for names whose only dot leads or trails. -/
def pathSuffix (p : String) : String :=
  let nm := pathFinalComponent p
  match lastDotIdx nm with
  | some i => if 0 < i ∧ i + 1 < nm.length then ⟨nm.drop i⟩ else ""
  | none => ""

/-- Round `num / den` to the nearest integer, ties to even — the rounding
of Python float formatting.  For byte counts below `2^53` the Python value
`size / (1024*1024)` is an exact binary scaling, so this model of
`f"{size_mb:.2f}"` agrees with the source exactly. -/
def roundHalfEven (num den : Nat) : Nat :=
  let q := num / den
  let r := num % den
  if 2 * r < den then q
  else if den < 2 * r then q + 1
  else if q % 2 = 0 then q else q + 1

/-- The `f"{file_size / (1024*1024):.2f}"` rendering of a byte count in MB
to two decimal places. -/
def fmt2MB (sizeBytes : Nat) : String :=
  let n := roundHalfEven (sizeBytes * 100) 1048576
  toString (n / 100) ++ "." ++ (if n % 100 < 10 then "0" else "") ++ toString (n % 100)

/-- The message of the `FileSizeExceededError` raised by
`FileHandler.validate_file_size`. -/
def sizeExceededMsg (sizeBytes maxMB : Nat) : String :=
  "File size (" ++ fmt2MB sizeBytes ++ "MB) exceeds maximum allowed size of " ++
    toString maxMB ++ "MB"

/-- `FileHandler.validate_file_size`.  `present` models
`os.path.exists`, `sizeBytes` models `os.path.getsize`; `some` is a raised
error, `none` means validation passed.  `max_size_bytes` is
`max_size_mb * 1024 * 1024`. -/
def validate_file_size (maxMB : Nat) (present : Bool) (sizeBytes : Nat)
    (path : String) : Option FileError :=
  if !present then some (.fileNotFound ("File not found: " ++ path))
  else if maxMB * 1024 * 1024 < sizeBytes then
    some (.fileSizeExceeded (sizeExceededMsg sizeBytes maxMB))
  else none

/-- `FileHandler.detect_file_type`. -/
def detect_file_type (path : String) : Except FileError String :=
  let extn := pyLower (pathSuffix path)
  match SUPPORTED_EXTENSIONS.find? (fun kv => kv.1 == extn) with
  | some kv => .ok kv.2
  | none =>
    .error (.unsupportedFileType
      ("Unsupported file type: " ++ extn ++ ". Supported types: " ++
        supportedTypesListing))

/-- `FileHandler.read_file` up to the dispatch to a kind-specific reader.
The first component is the detected file type (whose reader is then
invoked on the real file) or the raised error; the second component is the
trace of kind-specific readers invoked, so that "fails before any reader
runs" is expressible. -/
def read_file (expand : String → String) (maxMB : Nat) (present : Bool)
    (sizeBytes : Nat) (path : String) : Except FileError String × List String :=
  let expanded := expand path
  match validate_file_size maxMB present sizeBytes expanded with
  | some e => (.error e, [])
  | none =>
    match detect_file_type expanded with
    | .error e => (.error e, [])
    | .ok ftype => (.ok ftype, [ftype])

/-- The page separator of `PDFReader.read`. -/
def PAGE_BREAK_SEP : String := "\n\n--- Page Break ---\n\n"

/-- The page-collection loop of `PDFReader.read`: pages whose
`extract_text()` is empty (falsy) are dropped. -/
def collectPages (pages : List String) : List String :=
  pages.foldl (fun acc t => if t ≠ "" then acc ++ [t] else acc) []

/-- The combined text produced by `PDFReader.read` from the per-page
extraction results. -/
def pdfCombinedText (pages : List String) : String :=
  joinWith PAGE_BREAK_SEP (collectPages pages)

deriving instance DecidableEq for Except

/-! ## JSON values

A small model of the Python values produced by `json.load` /
`response.json()`.  JSON numbers are modelled as integers (no claim
involves fractional values); Python `bool` is kept separate from `int`
as a constructor but the validators below account for `bool` being an
`int` subclass where it matters. -/

inductive JVal where
  | jnull
  | jbool (b : Bool)
  | jnum (n : Int)
  | jstr (s : String)
  | jarr (xs : List JVal)
  | jobj (fields : List (String × JVal))

/-- An apostrophe, kept out of string literals. -/
def apos : String := String.singleton (Char.ofNat 39)

mutual

/-- Python `repr` of a JSON-derived value (strings in quotes), used for
values nested inside containers.  Assumes string content without
quotes to escape, which holds for every value in scope. -/
def jRepr : JVal → String
  | .jnull => "None"
  | .jbool true => "True"
  | .jbool false => "False"
  | .jnum n => toString n
  | .jstr s => apos ++ s ++ apos
  | .jarr xs => "[" ++ jReprList xs ++ "]"
  | .jobj fs => "\x7b" ++ jReprFields fs ++ "\x7d"

/-- Comma-joined `repr`s of list elements. -/
def jReprList : List JVal → String
  | [] => ""
  | [x] => jRepr x
  | x :: y :: ys => jRepr x ++ ", " ++ jReprList (y :: ys)

/-- Comma-joined `repr`s of dictionary items. -/
def jReprFields : List (String × JVal) → String
  | [] => ""
  | [kv] => apos ++ kv.1 ++ apos ++ ": " ++ jRepr kv.2
  | kv :: kw :: ks => apos ++ kv.1 ++ apos ++ ": " ++ jRepr kv.2 ++ ", " ++ jReprFields (kw :: ks)

end

/-- Python `str` of a JSON-derived value, as an f-string renders it
(bare strings, `repr` for containers). -/
def jStr : JVal → String
  | .jstr s => s
  | v => jRepr v

/-- Python `key in value`: key membership for a dictionary, element
equality for a list, substring test for a string; `none` models the
`TypeError` raised for the remaining types. -/
def pyIn (key : String) : JVal → Option Bool
  | .jobj fs => some (fs.any (fun kv => kv.1 == key))
  | .jarr xs => some (xs.any (fun v => match v with | .jstr s => s == key | _ => false))
  | .jstr s => some (pyContains s key)
  | _ => none

/-- Python `value[key]` for a string key: `none` models the raised
`KeyError` / `TypeError`. -/
def pySub (v : JVal) (key : String) : Option JVal :=
  match v with
  | .jobj fs => (fs.find? (fun kv => kv.1 == key)).map (fun kv => kv.2)
  | _ => none

/-- Python `len(value)`: `none` models the `TypeError` for sizeless
types. -/
def pyLen : JVal → Option Nat
  | .jarr xs => some xs.length
  | .jobj fs => some fs.length
  | .jstr s => some s.length
  | _ => none

/-- Python `value[0]`: first list element, or the first character of a
string as a one-character string; `none` models the raised error. -/
def pyIndex0 : JVal → Option JVal
  | .jarr (x :: _) => some x
  | .jstr s =>
    match s.data with
    | c :: _ => some (.jstr (String.singleton c))
    | [] => none
  | _ => none

/-! ## Provider Client — `smart_term/providers/perplexity.py` -/

/-- The outcome of `PerplexityProvider.send_query` once an HTTP response
has arrived: the returned value, a raised `APIError`, an exception that
escapes `send_query` unhandled (e.g. `TypeError`/`KeyError` on an
unexpected response shape), or the `APIError` re-wrapping a
`requests.RequestException` (whose message wraps transport detail not
modelled here). -/
inductive QueryOutcome where
  | ok (content : JVal)
  | apiError (msg : String)
  | uncaught
  | requestFailedError

/-- The message content construction of `send_query`
(`File content from {path}: ...` for text, `Content from {path}: ...`
for the non-text, non-image kinds). -/
def buildUserMessageText (fileType : Option String) (filePath content query : String) :
    String :=
  match fileType with
  | none => query
  | some "text" =>
    "File content from " ++ filePath ++ ":\n\n" ++ content ++ "\n\n" ++ query
  | some "image" => query
  | some _ =>
    "Content from " ++ filePath ++ ":\n\n" ++ content ++ "\n\n" ++ query

/-- The response-classification logic of `send_query`
(`perplexity.py:122-145`): `status` is the HTTP status code, `parsed` the
result of `response.json()` (`none` when the body is not JSON), `raw` the
body text `response.text`. -/
def classify_response (status : Nat) (parsed : Option JVal) (raw : String) :
    QueryOutcome :=
  if status == 401 then
    .apiError "Authentication failed. Please check your API key."
  else if status == 429 then
    .apiError "Rate limit exceeded. Please wait and try again."
  else if 400 ≤ status then
    let base := "API request failed with status " ++ toString status
    .apiError
      (match parsed with
       | none => base ++ ": " ++ raw
       | some d =>
         match pyIn "error" d with
         | none => base ++ ": " ++ raw
         | some false => base
         | some true =>
           match pySub d "error" with
           | some v => base ++ ": " ++ jStr v
           | none => base ++ ": " ++ raw)
  else
    match parsed with
    | none => .requestFailedError
    | some d =>
      match pyIn "choices" d with
      | none => .uncaught
      | some false => .apiError "Unexpected API response format"
      | some true =>
        match pySub d "choices" with
        | none => .uncaught
        | some choices =>
          match pyLen choices with
          | none => .uncaught
          | some 0 => .apiError "Unexpected API response format"
          | some (_ + 1) =>
            match pyIndex0 choices with
            | none => .uncaught
            | some first =>
              match pySub first "message" with
              | none => .uncaught
              | some msg =>
                match pySub msg "content" with
                | none => .uncaught
                | some content => .ok content

/-! ## Provider factory and the orchestration slice — `factory.py`, `main.py` -/

/-- The errors raised by `ProviderFactory.create_provider`. -/
inductive ProviderError where
  | missingAPIKey (msg : String)
  | unsupportedProvider (msg : String)
deriving DecidableEq, Repr

/-- The remediation message of the `MissingAPIKeyError` raised by
`ProviderFactory._create_perplexity_provider`. -/
def MISSING_KEY_MSG : String :=
  "PERPLEXITY_API_KEY environment variable is not set.\n\n" ++
  "To set up your API key:\n" ++
  "1. Get your API key from https://www.perplexity.ai/settings/api\n" ++
  "2. Set the environment variable:\n" ++
  "   export PERPLEXITY_API_KEY=" ++ apos ++ "your-api-key-here" ++ apos ++ "\n" ++
  "3. Or add it to your ~/.bashrc or ~/.zshrc for persistence"

/-- A created provider instance (`PerplexityProvider.__init__`, with
`base_url.rstrip('/')`). -/
structure ProviderHandle where
  apiKey : String
  baseUrl : String
deriving DecidableEq, Repr

/-- Python `s.rstrip('/')`. -/
def rstripSlash (s : String) : String :=
  ⟨(s.data.reverse.dropWhile (fun c => c = '/')).reverse⟩

/-- `ProviderFactory._create_perplexity_provider`.  `envApiKey` models
`os.getenv("PERPLEXITY_API_KEY")`; `if not api_key` fires both when the
variable is unset and when it is set to the empty string. -/
def create_perplexity_provider (envApiKey : Option String)
    (baseUrlCfg : Option String) : Except ProviderError ProviderHandle :=
  match envApiKey with
  | none => .error (.missingAPIKey MISSING_KEY_MSG)
  | some k =>
    if k = "" then .error (.missingAPIKey MISSING_KEY_MSG)
    else
      .ok { apiKey := k
            baseUrl := rstripSlash (baseUrlCfg.getD "https://api.perplexity.ai") }

/-- `ProviderFactory.create_provider`. -/
def create_provider (providerName : String) (envApiKey : Option String)
    (baseUrlCfg : Option String) : Except ProviderError ProviderHandle :=
  if providerName = "perplexity" then
    create_perplexity_provider envApiKey baseUrlCfg
  else
    .error (.unsupportedProvider
      ("Provider " ++ apos ++ providerName ++ apos ++
        " is not supported. Available providers: perplexity"))

/-- The observable outcome of the provider stage of `execute_query`
(`main.py:112-171`): the exit code, how many times `send_query` ran, and
the error text passed to `formatter.display_error`, where that text is
modelled (`none` on the success path and on the two paths whose message
wraps unmodelled transport or traceback detail). -/
structure QueryRunResult where
  exitCode : Int
  sendQueryCalls : Nat
  displayedError : Option String
deriving DecidableEq, Repr

/-- The provider-creation and query-sending slice of `execute_query`
(`main.py:112-171`), given the environment and the classified outcome the
network call would produce.  When provider creation fails, `send_query` is
never invoked.  An `uncaught` outcome reaches the outer
`except Exception` handler of `execute_query` and exits with code 1. -/
def executeProviderStage (providerName : String) (envApiKey : Option String)
    (sendOutcome : QueryOutcome) : QueryRunResult :=
  match create_provider providerName envApiKey none with
  | .error (.missingAPIKey msg) =>
    { exitCode := 1, sendQueryCalls := 0, displayedError := some msg }
  | .error (.unsupportedProvider msg) =>
    { exitCode := 1, sendQueryCalls := 0, displayedError := some msg }
  | .ok _ =>
    match sendOutcome with
    | .ok _ => { exitCode := 0, sendQueryCalls := 1, displayedError := none }
    | .apiError msg =>
      { exitCode := 5, sendQueryCalls := 1, displayedError := some msg }
    | .requestFailedError =>
      { exitCode := 5, sendQueryCalls := 1, displayedError := none }
    | .uncaught =>
      { exitCode := 1, sendQueryCalls := 1, displayedError := none }

/-! ## Configuration loader — `smart_term/config/loader.py`, `defaults.py` -/

/-- `DEFAULT_CONFIG` from `smart_term/config/defaults.py`. -/
def DEFAULT_CONFIG : List (String × JVal) :=
  [("default_model", .jstr "sonar"),
   ("default_provider", .jstr "perplexity"),
   ("timeout", .jnum 30),
   ("max_file_size_mb", .jnum 10),
   ("output_format", .jstr "markdown"),
   ("show_thinking_animation", .jbool true),
   ("log_level", .jstr "INFO")]

/-- Python `isinstance(v, (int, float))`: `True` also for `bool`, which
is an `int` subclass. -/
def isPyNumber : JVal → Bool
  | .jnum _ => true
  | .jbool _ => true
  | _ => false

/-- Python `v > 0` for the values accepted by `isPyNumber`
(`True` counts as 1, `False` as 0). -/
def pyPositive : JVal → Bool
  | .jnum n => decide (0 < n)
  | .jbool b => b
  | _ => false

/-- Python `isinstance(v, bool)`. -/
def isPyBool : JVal → Bool
  | .jbool _ => true
  | _ => false

/-- The recognized log levels of `ConfigLoader.validate_config`. -/
def LOG_LEVELS : List String :=
  ["DEBUG", "INFO", "WARNING", "ERROR", "CRITICAL"]

/-- One `if key in config: if not ok(config[key]): return False` step of
`validate_config`: vacuously true when the key is absent. -/
def checkKey (fields : List (String × JVal)) (key : String)
    (ok : JVal → Bool) : Bool :=
  match fields.find? (fun kv => kv.1 == key) with
  | some kv => ok kv.2
  | none => true

/-- The `timeout` / `max_file_size_mb` value check. -/
def positiveNumberOk (v : JVal) : Bool :=
  isPyNumber v && pyPositive v

/-- The `log_level` value check. -/
def logLevelOk (v : JVal) : Bool :=
  LOG_LEVELS.any (fun s => match v with | .jstr t => t == s | _ => false)

/-- The `output_format` value check. -/
def outputFormatOk (v : JVal) : Bool :=
  match v with
  | .jstr t => t == "markdown" || t == "plain"
  | _ => false

/-- `ConfigLoader.validate_config`: `False` when the value is not a
dictionary or any recognized key carries an invalid value. -/
def validate_config : JVal → Bool
  | .jobj fields =>
    checkKey fields "timeout" positiveNumberOk &&
    checkKey fields "max_file_size_mb" positiveNumberOk &&
    checkKey fields "show_thinking_animation" isPyBool &&
    checkKey fields "log_level" logLevelOk &&
    checkKey fields "output_format" outputFormatOk
  | _ => false

/-- Python `merged = DEFAULT_CONFIG.copy(); merged.update(user)`: keys of
the base keep their position with the updated value, new keys are
appended.  Parsed JSON objects carry distinct keys. -/
def dictUpdate (base upd : List (String × JVal)) : List (String × JVal) :=
  base.map (fun kv =>
    match upd.find? (fun kw => kw.1 == kv.1) with
    | some kw => (kv.1, kw.2)
    | none => kv) ++
  upd.filter (fun kw => !(base.any (fun kv => kv.1 == kw.1)))

/-- `ConfigLoader.merge_with_defaults`. -/
def merge_with_defaults (user : List (String × JVal)) : List (String × JVal) :=
  dictUpdate DEFAULT_CONFIG user

/-- The fields of a parsed JSON object (`validate_config` guarantees the
object shape before `merge_with_defaults` consumes it). -/
def jObjFields : JVal → List (String × JVal)
  | .jobj fs => fs
  | _ => []

/-- The possible states of the configuration file as `load_config`
observes them: missing, unreadable (any `open`/read failure), JSON that
fails to parse, or a parsed JSON value. -/
inductive ConfigFileState where
  | absent
  | unreadable
  | malformedJson
  | parsed (v : JVal)

/-- `ConfigLoader.load_config`.  The second component records whether a
warning/error line was printed (its text interpolates the config path and
exception detail and is not modelled).  Every failure path is caught
inside `load_config` and yields the built-in defaults. -/
def load_config : ConfigFileState → List (String × JVal) × Bool
  | .absent => (DEFAULT_CONFIG, false)
  | .unreadable => (DEFAULT_CONFIG, true)
  | .malformedJson => (DEFAULT_CONFIG, true)
  | .parsed v =>
    if validate_config v then (merge_with_defaults (jObjFields v), false)
    else (DEFAULT_CONFIG, true)

/-- The condition of claim C8: the parsed user configuration is a
dictionary in which some recognized key carries an invalid value. -/
def hasInvalidRecognizedValue : JVal → Bool
  | .jobj fields =>
    !(checkKey fields "timeout" positiveNumberOk) ||
    !(checkKey fields "max_file_size_mb" positiveNumberOk) ||
    !(checkKey fields "show_thinking_animation" isPyBool) ||
    !(checkKey fields "log_level" logLevelOk) ||
    !(checkKey fields "output_format" outputFormatOk)
  | _ => false

/-- Whether a token is recognized as a model flag (case-insensitively). -/
def isModelFlagToken (a : String) : Bool :=
  (modelFlagLookup (pyLower a)).isSome

/-- Whether a token is recognized as a sources flag (case-insensitively). -/
def isSourceFlagToken (a : String) : Bool :=
  SOURCE_FLAGS.contains (pyLower a)

/-- The validation guard of `execute_query` (`main.py:73-78`): a parsed
descriptor whose query is empty and whose file path is absent (or empty)
is rejected with exit code 1 before any further processing; `none` means
execution proceeds. -/
def executeQueryGuard (p : ParsedArguments) : Option Int :=
  if p.query = "" ∧ p.file_path.getD "" = "" then some 1 else none

/-! ## Helper lemmas -/

theorem emfLoop_remaining (l : List String) :
    ∀ model rem found, (emfLoop model rem found l).2.1 =
      rem ++ l.filter (fun a => !(isModelFlagToken a)) := by
  induction l with
  | nil => intro model rem found; simp [emfLoop]
  | cons a rest ih =>
    intro model rem found
    unfold emfLoop
    cases h : modelFlagLookup (pyLower a) with
    | some m => simp [h, ih, isModelFlagToken, List.filter_cons]
    | none => simp [h, ih, isModelFlagToken, List.filter_cons]

theorem emfLoop_found (l : List String) :
    ∀ model rem found, (emfLoop model rem found l).2.2 =
      found ++ (l.filter isModelFlagToken).map pyLower := by
  induction l with
  | nil => intro model rem found; simp [emfLoop]
  | cons a rest ih =>
    intro model rem found
    unfold emfLoop
    cases h : modelFlagLookup (pyLower a) with
    | some m => simp [h, ih, isModelFlagToken, List.filter_cons]
    | none => simp [h, ih, isModelFlagToken, List.filter_cons]

theorem emfLoop_model (l : List String) :
    ∀ model rem found, (emfLoop model rem found l).1 =
      ((l.filter isModelFlagToken).map
        (fun a => modelFlagLookup (pyLower a))).getLastD model := by
  induction l with
  | nil => intro model rem found; simp [emfLoop]
  | cons a rest ih =>
    intro model rem found
    unfold emfLoop
    cases h : modelFlagLookup (pyLower a) with
    | some m =>
      have hf : (a :: rest).filter isModelFlagToken =
          a :: rest.filter isModelFlagToken := by
        simp [List.filter_cons, isModelFlagToken, h]
      rw [ih, hf, List.map_cons, List.getLastD_cons, h]
    | none =>
      have hf : (a :: rest).filter isModelFlagToken =
          rest.filter isModelFlagToken := by
        simp [List.filter_cons, isModelFlagToken, h]
      rw [ih, hf]

theorem esfLoop_remaining (l : List String) :
    ∀ srcFlag rem, (esfLoop srcFlag rem l).2 =
      rem ++ l.filter (fun a => !(isSourceFlagToken a)) := by
  induction l with
  | nil => intro srcFlag rem; simp [esfLoop]
  | cons a rest ih =>
    intro srcFlag rem
    unfold esfLoop
    cases h : SOURCE_FLAGS.contains (pyLower a) with
    | true =>
      have hm : pyLower a ∈ SOURCE_FLAGS := by simpa using h
      simp [h, ih, isSourceFlagToken, List.filter_cons, hm]
    | false =>
      have hm : ¬(pyLower a ∈ SOURCE_FLAGS) := by simpa using h
      simp [h, ih, isSourceFlagToken, List.filter_cons, hm]

theorem joinWith_space_ne_empty (l : List String) (a : String)
    (ha : a ∈ l) (hne : a ≠ "") : joinWith " " l ≠ "" := by
  match l, ha with
  | [x], ha =>
    have hax : a = x := by simpa using ha
    simpa [joinWith, hax.symm] using hne
  | x :: y :: ys, _ =>
    show x ++ " " ++ joinWith " " (y :: ys) ≠ ""
    intro hcon
    have hlen := congrArg String.length hcon
    simp [String.length_append] at hlen
    exact absurd hlen.1.2 (by decide)

theorem pySplit1_isSome_of_pyContains (s sep : String)
    (hne : sep.data.isEmpty = false) (h : pyContains s sep = true) :
    (pySplit1 s sep).isSome := by
  unfold pyContains at h
  rw [if_neg (by simp [hne])] at h
  simpa [pySplit1] using h

/-! ## Claim theorems -/

/-- Claim C1 (code bug): the argument interpreter records a user request
for sources (`--show-sources` parses to `show_sources = true`), and the
formatter renders a citations frame with one shortened clickable link per
well-formed citation line when `show_sources=true` is passed — but the
call site `main.py:168` omits the `show_sources` argument, so the
rendering that actually happens uses the default `False` and no citations
frame is ever rendered.  Evaluated here at a canonical dual-marker
response for the failing input. -/
theorem c1_show_sources_never_forwarded :
    (parse id (fun _ => false) "sonar" "perplexity"
      ["--show-sources", "What", "is", "AI"]).show_sources = true ∧
    displayResponseFromMain
      "Clean body.__CITATIONS__[1] https://www.example.com/docs/intro__WITH_CITATIONS__Cited body [1].__CITATIONS__[1] https://www.example.com/docs/intro"
      "sonar" =
      some { body := "Clean body."
             panelTitle := "Response from sonar"
             borderColor := "cyan"
             citationsFrame := none } ∧
    display_response
      "Clean body.__CITATIONS__[1] https://www.example.com/docs/intro__WITH_CITATIONS__Cited body [1].__CITATIONS__[1] https://www.example.com/docs/intro"
      "sonar" true =
      some { body := "Cited body [1]."
             panelTitle := "Response from sonar"
             borderColor := "cyan"
             citationsFrame := some [.link "[1]" "example.com/docs"
               "https://www.example.com/docs/intro"] } := by
  refine ⟨by decide, by decide, by decide⟩

/-- Claim C2 (counterexample): a response satisfying the claimed invariant
(`__WITH_CITATIONS__` present implies `__CITATIONS__` present) on which
`display_response` nevertheless fails for `show_sources = true`: the
chosen with-citations segment contains no `__CITATIONS__` marker, so the
second split raises (`none` in the model). -/
theorem c2_counterexample :
    pyContains "a__CITATIONS__b__WITH_CITATIONS__c" WITH_CITATIONS_MARKER = true ∧
    pyContains "a__CITATIONS__b__WITH_CITATIONS__c" CITATIONS_MARKER = true ∧
    display_response "a__CITATIONS__b__WITH_CITATIONS__c" "sonar" true = none := by
  refine ⟨by decide, by decide, by decide⟩

/-- Claim C2 (amended): `display_response` succeeds for both values of
`show_sources` provided that, whenever `__WITH_CITATIONS__` is present,
`__CITATIONS__` occurs both in the clean segment before it and in the
with-citations segment after it; each chosen segment then splits into a
body and a citations list. -/
theorem c2_amended_display_response_total (response model : String)
    (show_sources : Bool)
    (h : pyContains response WITH_CITATIONS_MARKER = true →
      pyContains (pySplitPart0 response WITH_CITATIONS_MARKER)
          CITATIONS_MARKER = true ∧
      pyContains ((pySplitPart1 response WITH_CITATIONS_MARKER).getD
          (pySplitPart0 response WITH_CITATIONS_MARKER))
          CITATIONS_MARKER = true) :
    (display_response response model show_sources).isSome := by
  unfold display_response
  by_cases hc : pyContains response CITATIONS_MARKER
  · rw [if_pos hc]
    by_cases hw : pyContains response WITH_CITATIONS_MARKER
    · rw [if_pos hw]
      obtain ⟨h0, h1⟩ := h hw
      cases show_sources with
      | false =>
        have hs := pySplit1_isSome_of_pyContains _ _ (by decide) h0
        obtain ⟨p, hp⟩ := Option.isSome_iff_exists.mp hs
        simp only [Bool.false_eq_true, if_false, hp]
        cases p with
        | mk mainR citSec => simp
      | true =>
        have hs := pySplit1_isSome_of_pyContains _ _ (by decide) h1
        obtain ⟨p, hp⟩ := Option.isSome_iff_exists.mp hs
        simp only [if_true, hp]
        cases p with
        | mk mainR citSec => simp
    · rw [if_neg hw]
      have hs := pySplit1_isSome_of_pyContains _ _ (by decide) hc
      obtain ⟨p, hp⟩ := Option.isSome_iff_exists.mp hs
      simp only [hp]
      cases p with
      | mk mainR citSec => simp
  · rw [if_neg hc]
    simp

/-- Witness for C2 (amended) at a canonical dual-marker response. -/
theorem c2_amended_witness :
    (pyContains
        "Body.__CITATIONS__[1] https://x.io__WITH_CITATIONS__Cited.__CITATIONS__[1] https://x.io"
        WITH_CITATIONS_MARKER = true →
      pyContains (pySplitPart0
          "Body.__CITATIONS__[1] https://x.io__WITH_CITATIONS__Cited.__CITATIONS__[1] https://x.io"
          WITH_CITATIONS_MARKER) CITATIONS_MARKER = true ∧
      pyContains ((pySplitPart1
          "Body.__CITATIONS__[1] https://x.io__WITH_CITATIONS__Cited.__CITATIONS__[1] https://x.io"
          WITH_CITATIONS_MARKER).getD
        (pySplitPart0
          "Body.__CITATIONS__[1] https://x.io__WITH_CITATIONS__Cited.__CITATIONS__[1] https://x.io"
          WITH_CITATIONS_MARKER)) CITATIONS_MARKER = true) ∧
    (display_response
      "Body.__CITATIONS__[1] https://x.io__WITH_CITATIONS__Cited.__CITATIONS__[1] https://x.io"
      "sonar" true).isSome := by
  refine ⟨fun _ => ⟨by decide, by decide⟩, ?_⟩
  exact c2_amended_display_response_total _ _ _ (fun _ => ⟨by decide, by decide⟩)

/-- Claim C3 (counterexample): `parse` itself does not guarantee the
invariant — a flag-only argument list yields a descriptor with an empty
query and no file path. -/
theorem c3_counterexample :
    (parse id (fun _ => false) "sonar" "perplexity" ["--s"]).query = "" ∧
    (parse id (fun _ => false) "sonar" "perplexity" ["--s"]).file_path = none := by
  refine ⟨by decide, by decide⟩

/-- Claim C3 (amended): whenever the argument list contains a nonempty
token that is neither a recognized model flag nor a recognized sources
flag, the parsed descriptor satisfies the invariant (nonempty query or
present file path); descriptors violating the invariant are rejected by
the guard of `execute_query` with exit code 1 before any further use. -/
theorem c3_amended_parse_invariant (expand : String → String)
    (isFile : String → Bool) (dm dp : String) (args : List String)
    (h : ∃ a ∈ args, a ≠ "" ∧ isModelFlagToken a = false ∧
      isSourceFlagToken a = false) :
    ((parse expand isFile dm dp args).query ≠ "" ∨
      (parse expand isFile dm dp args).file_path ≠ none) ∧
    (∀ p : ParsedArguments, p.query = "" → p.file_path = none →
      executeQueryGuard p = some 1) := by
  constructor
  · obtain ⟨a, hmem, hane, hm, hs⟩ := h
    match args, hmem with
    | b :: rest, hmem =>
      unfold parse detect_file_path
      by_cases hb : isFile (expand b)
      · right
        simp [hb]
      · left
        simp only [hb, if_false]
        show build_query (extract_sources_flag
          (extract_model_flag (b :: rest)).2.1).2 ≠ ""
        have h1 : (extract_model_flag (b :: rest)).2.1 =
            (b :: rest).filter (fun x => !(isModelFlagToken x)) := by
          simpa [extract_model_flag] using
            emfLoop_remaining (b :: rest) none [] []
        have h2 : (extract_sources_flag
            (extract_model_flag (b :: rest)).2.1).2 =
            ((b :: rest).filter (fun x => !(isModelFlagToken x))).filter
              (fun x => !(isSourceFlagToken x)) := by
          rw [h1]
          simpa [extract_sources_flag] using
            esfLoop_remaining ((b :: rest).filter
              (fun x => !(isModelFlagToken x))) false []
        rw [h2]
        apply joinWith_space_ne_empty _ a _ hane
        rw [List.mem_filter, List.mem_filter]
        exact ⟨⟨hmem, by simp [hm]⟩, by simp [hs]⟩
  · intro p hq hf
    simp [executeQueryGuard, hq, hf]

/-- Witness for C3 (amended) at a flag-plus-word argument list. -/
theorem c3_amended_parse_invariant_witness :
    (∃ a ∈ (["--s", "hello"] : List String), a ≠ "" ∧
      isModelFlagToken a = false ∧ isSourceFlagToken a = false) ∧
    ((parse id (fun _ => false) "sonar" "perplexity" ["--s", "hello"]).query ≠ "" ∨
      (parse id (fun _ => false) "sonar" "perplexity"
        ["--s", "hello"]).file_path ≠ none) := by
  refine ⟨⟨"hello", by decide, by decide, by decide, by decide⟩, ?_⟩
  exact (c3_amended_parse_invariant id (fun _ => false) "sonar" "perplexity"
    ["--s", "hello"] ⟨"hello", by decide, by decide, by decide, by decide⟩).1

/-- Claim C4: when the argument list contains more than one recognized
model flag (case-insensitively), `extract_model_flag` selects the model
of the last flag in left-to-right order, removes every matched flag token
from the token stream, and surfaces a standard-error warning listing all
matched flags. -/
theorem c4_last_flag_wins (args : List String)
    (h : 2 ≤ (args.filter isModelFlagToken).length) :
    (∃ lastTok, (args.filter isModelFlagToken).getLast? = some lastTok ∧
      (extract_model_flag args).1 = modelFlagLookup (pyLower lastTok)) ∧
    (extract_model_flag args).2.1 =
      args.filter (fun a => !(isModelFlagToken a)) ∧
    (∀ a ∈ (extract_model_flag args).2.1, isModelFlagToken a = false) ∧
    (extract_model_flag args).2.2 =
      (args.filter isModelFlagToken).map pyLower ∧
    multiFlagWarning (extract_model_flag args).2.2 =
      some (multiFlagWarnText ((args.filter isModelFlagToken).map pyLower)) := by
  have hrem : (extract_model_flag args).2.1 =
      args.filter (fun a => !(isModelFlagToken a)) := by
    simpa [extract_model_flag] using emfLoop_remaining args none [] []
  have hfound : (extract_model_flag args).2.2 =
      (args.filter isModelFlagToken).map pyLower := by
    simpa [extract_model_flag] using emfLoop_found args none [] []
  have hne : args.filter isModelFlagToken ≠ [] := by
    intro he
    rw [he] at h
    simp at h
  obtain ⟨lastTok, hlast⟩ :
      ∃ t, (args.filter isModelFlagToken).getLast? = some t := by
    cases hg : (args.filter isModelFlagToken).getLast? with
    | none => exact absurd (List.getLast?_eq_none_iff.mp hg) hne
    | some t => exact ⟨t, rfl⟩
  refine ⟨⟨lastTok, hlast, ?_⟩, hrem, ?_, hfound, ?_⟩
  · have hm : (extract_model_flag args).1 =
        ((args.filter isModelFlagToken).map
          (fun a => modelFlagLookup (pyLower a))).getLastD none := by
      simpa [extract_model_flag] using emfLoop_model args none [] []
    rw [hm, List.getLastD_eq_getLast?, List.getLast?_map, hlast]
    rfl
  · intro a hmem
    rw [hrem, List.mem_filter] at hmem
    simpa using hmem.2
  · rw [hfound]
    unfold multiFlagWarning
    rw [if_pos (by simpa using h)]

/-- Witness for C4 at a duplicated-flag argument list. -/
theorem c4_witness :
    2 ≤ ((["--P", "Explain", "--s"] : List String).filter
      isModelFlagToken).length ∧
    (extract_model_flag ["--P", "Explain", "--s"]).1 = some "sonar" ∧
    (extract_model_flag ["--P", "Explain", "--s"]).2.1 = ["Explain"] ∧
    multiFlagWarning (extract_model_flag ["--P", "Explain", "--s"]).2.2 =
      some (multiFlagWarnText ["--p", "--s"]) := by
  have h := c4_last_flag_wins ["--P", "Explain", "--s"] (by decide)
  refine ⟨by decide, ?_, ?_, ?_⟩
  · obtain ⟨⟨lastTok, hlast, hmodel⟩, _, _, _, _⟩ := h
    have : lastTok = "--s" := by
      have := hlast
      simp only [show (["--P", "Explain", "--s"] : List String).filter
        isModelFlagToken = ["--P", "--s"] from by decide] at this
      simpa using this.symm
    rw [hmodel, this]
    decide
  · rw [h.2.1]
    decide
  · rw [h.2.2.2.2]
    decide

/-- Claim C5: for every existing file whose byte size exceeds
`max_size_mb * 2^20`, `read_file` fails with `FileSizeExceeded` before any
kind-specific reader is invoked (empty reader trace), and the error
message carries the actual size in MB to two decimal places together with
the configured limit. -/
theorem c5_size_exceeded_before_readers (expand : String → String)
    (maxMB sizeBytes : Nat) (path : String)
    (h : maxMB * 1024 * 1024 < sizeBytes) :
    read_file expand maxMB true sizeBytes path =
      (.error (.fileSizeExceeded (sizeExceededMsg sizeBytes maxMB)), []) := by
  unfold read_file validate_file_size
  simp [h]

/-- Witness for C5: an 11 MiB + 1 byte file against a 10 MB limit; the
message carries "11.00MB" and "10MB". -/
theorem c5_witness :
    (10 : Nat) * 1024 * 1024 < 11534337 ∧
    read_file id 10 true 11534337 "notes.pdf" =
      (.error (.fileSizeExceeded (sizeExceededMsg 11534337 10)), []) ∧
    sizeExceededMsg 11534337 10 =
      "File size (11.00MB) exceeds maximum allowed size of 10MB" ∧
    pyContains (sizeExceededMsg 11534337 10) "11.00MB" = true ∧
    pyContains (sizeExceededMsg 11534337 10) "10MB" = true := by
  refine ⟨by decide, c5_size_exceeded_before_readers id 10 11534337 "notes.pdf"
    (by decide), by decide, by decide, by decide⟩

theorem collectPages_eq_filter (pages : List String) :
    collectPages pages = pages.filter (fun t => !(t == "")) := by
  have haux : ∀ (l : List String) (acc : List String),
      l.foldl (fun acc t => if t ≠ "" then acc ++ [t] else acc) acc =
        acc ++ l.filter (fun t => !(t == "")) := by
    intro l
    induction l with
    | nil => intro acc; simp
    | cons t rest ih =>
      intro acc
      rw [List.foldl_cons]
      by_cases ht : t = ""
      · rw [if_neg (by simp [ht]), ih, List.filter_cons]
        simp [ht]
      · rw [if_pos ht, ih, List.filter_cons]
        simp [ht]
  simpa [collectPages] using haux pages []

/-- Claim C6: the combined PDF text is the page texts of exactly the
pages yielding non-empty extracted text, in page order, joined with the
literal page-break separator; a 3-page document whose middle page yields
no text produces the first and third page joined by a single separator,
and the concrete instance contains that separator exactly once. -/
theorem c6_pdf_page_join (pages : List String) (p1 p3 : String)
    (h1 : p1 ≠ "") (h3 : p3 ≠ "") :
    pdfCombinedText pages =
      joinWith PAGE_BREAK_SEP (pages.filter (fun t => !(t == ""))) ∧
    pdfCombinedText [p1, "", p3] = p1 ++ PAGE_BREAK_SEP ++ p3 ∧
    countOccurrences (pdfCombinedText ["First page.", "", "Third page."])
      PAGE_BREAK_SEP = 1 := by
  refine ⟨by rw [pdfCombinedText, collectPages_eq_filter], ?_, by decide⟩
  rw [pdfCombinedText, collectPages_eq_filter]
  simp [List.filter_cons, h1, h3, joinWith]

/-- Witness for C6 at a concrete three-page extraction result. -/
theorem c6_witness :
    ("First page." : String) ≠ "" ∧ ("Third page." : String) ≠ "" ∧
    pdfCombinedText ["First page.", "", "Third page."] =
      "First page." ++ PAGE_BREAK_SEP ++ "Third page." ∧
    countOccurrences (pdfCombinedText ["First page.", "", "Third page."])
      PAGE_BREAK_SEP = 1 := by
  have h := c6_pdf_page_join ["First page.", "", "Third page."]
    "First page." "Third page." (by decide) (by decide)
  exact ⟨by decide, by decide, h.2.1, h.2.2⟩

/-- Claim C7 (counterexample): an HTTP 500 response whose body parses as
JSON without an `error` field is classified as an `APIError` naming only
the status — the raw body text is not appended, contrary to the claim
that a missing `error` field falls back to the raw body. -/
theorem c7_counterexample :
    classify_response 500 (some (.jobj [("detail", .jstr "oops")]))
      "\x7b\"detail\": \"oops\"\x7d" =
      .apiError "API request failed with status 500" ∧
    pyContains "API request failed with status 500"
      "\x7b\"detail\": \"oops\"\x7d" = false := by
  exact ⟨rfl, by decide⟩

/-- Claim C7 (amended): `send_query` response classification in order —
401 yields the authentication `APIError`; 429 the rate-limit `APIError`;
any other status ≥ 400 an `APIError` naming the status, appending the
body's `error` field when the body parses as JSON containing it and the
raw body text only when the body does not parse as JSON (a parsed body
without an `error` field appends nothing); on success with a JSON-object
body, a non-empty `choices` list yields the first choice's message
content, while an absent `choices` key or an empty list yields
`APIError("Unexpected API response format")`. -/
theorem c7_amended_classification (status : Nat) (raw : String)
    (parsed : Option JVal) (fields : List (String × JVal)) :
    (classify_response 401 parsed raw =
      .apiError "Authentication failed. Please check your API key.") ∧
    (classify_response 429 parsed raw =
      .apiError "Rate limit exceeded. Please wait and try again.") ∧
    (400 ≤ status → status ≠ 401 → status ≠ 429 →
      classify_response status none raw =
        .apiError ("API request failed with status " ++ toString status ++
          ": " ++ raw)) ∧
    (400 ≤ status → status ≠ 401 → status ≠ 429 →
      ∀ kv, fields.find? (fun f => f.1 == "error") = some kv →
        classify_response status (some (.jobj fields)) raw =
          .apiError ("API request failed with status " ++ toString status ++
            ": " ++ jStr kv.2)) ∧
    (400 ≤ status → status ≠ 401 → status ≠ 429 →
      fields.find? (fun f => f.1 == "error") = none →
        classify_response status (some (.jobj fields)) raw =
          .apiError ("API request failed with status " ++ toString status)) ∧
    (status < 400 →
      fields.find? (fun f => f.1 == "choices") = none →
        classify_response status (some (.jobj fields)) raw =
          .apiError "Unexpected API response format") ∧
    (status < 400 →
      ∀ kv, fields.find? (fun f => f.1 == "choices") = some kv →
        kv.2 = .jarr [] →
        classify_response status (some (.jobj fields)) raw =
          .apiError "Unexpected API response format") ∧
    (status < 400 →
      ∀ kv first rest msg content,
        fields.find? (fun f => f.1 == "choices") = some kv →
        kv.2 = .jarr (first :: rest) →
        pySub first "message" = some msg →
        pySub msg "content" = some content →
        classify_response status (some (.jobj fields)) raw = .ok content) := by
  have hany_none : ∀ (key : String),
      fields.find? (fun f => f.1 == key) = none →
      fields.any (fun f => f.1 == key) = false := by
    intro key hf
    rw [List.any_eq_false]
    intro f hmem
    have := List.find?_eq_none.mp hf f hmem
    simpa using this
  have hany_some : ∀ (key : String) (kv : String × JVal),
      fields.find? (fun f => f.1 == key) = some kv →
      fields.any (fun f => f.1 == key) = true := by
    intro key kv hf
    rw [List.any_eq_true]
    have hp : ∃ x, x ∈ fields ∧ (fun f : String × JVal => f.1 == key) x :=
      List.find?_isSome.mp (by rw [hf]; rfl)
    obtain ⟨x, hx1, hx2⟩ := hp
    exact ⟨x, hx1, hx2⟩
  refine ⟨by simp [classify_response], by simp [classify_response],
    ?_, ?_, ?_, ?_, ?_, ?_⟩
  · intro h4 h401 h429
    simp [classify_response, h401, h429, h4]
  · intro h4 h401 h429 kv hkv
    have hsub : pySub (JVal.jobj fields) "error" = some kv.2 := by
      simp [pySub, hkv]
    simp only [classify_response, beq_iff_eq, h401, h429, if_false,
      if_pos h4, pyIn, hany_some "error" kv hkv, hsub]
  · intro h4 h401 h429 hkv
    simp only [classify_response, beq_iff_eq, h401, h429, if_false,
      if_pos h4, pyIn, hany_none "error" hkv]
  · intro hlt hkv
    have h4 : ¬(400 ≤ status) := by omega
    have h401 : status ≠ 401 := by omega
    have h429 : status ≠ 429 := by omega
    simp only [classify_response, beq_iff_eq, h401, h429, if_false,
      if_neg h4, pyIn, hany_none "choices" hkv]
  · intro hlt kv hkv harr
    have h4 : ¬(400 ≤ status) := by omega
    have h401 : status ≠ 401 := by omega
    have h429 : status ≠ 429 := by omega
    have hsub : pySub (JVal.jobj fields) "choices" = some (JVal.jarr []) := by
      simp [pySub, hkv, harr]
    simp only [classify_response, beq_iff_eq, h401, h429, if_false,
      if_neg h4, pyIn, hany_some "choices" kv hkv, hsub, pyLen,
      List.length_nil]
  · intro hlt kv first rest msg content hkv harr hmsg hcontent
    have h4 : ¬(400 ≤ status) := by omega
    have h401 : status ≠ 401 := by omega
    have h429 : status ≠ 429 := by omega
    have hsub : pySub (JVal.jobj fields) "choices" =
        some (JVal.jarr (first :: rest)) := by
      simp [pySub, hkv, harr]
    simp only [classify_response, beq_iff_eq, h401, h429, if_false,
      if_neg h4, pyIn, hany_some "choices" kv hkv, hsub, pyLen,
      List.length_cons, pyIndex0, hmsg, hcontent]

/-- Witness for C7 (amended) at concrete 500-status and success-shape
responses. -/
theorem c7_amended_witness :
    classify_response 500 (some (.jobj [("error", .jstr "bad model")]))
      "ignored" =
      .apiError "API request failed with status 500: bad model" ∧
    classify_response 500 none "upstream exploded" =
      .apiError "API request failed with status 500: upstream exploded" ∧
    classify_response 200
      (some (.jobj [("choices", .jarr
        [.jobj [("message", .jobj [("content", .jstr "Hello!")])]])]))
      "ignored" = .ok (.jstr "Hello!") ∧
    classify_response 200 (some (.jobj [("choices", .jarr [])])) "ignored" =
      .apiError "Unexpected API response format" := by
  have h := c7_amended_classification 500 "ignored" none
    [("error", .jstr "bad model")]
  have h2 := c7_amended_classification 500 "upstream exploded" none []
  have h3 := c7_amended_classification 200 "ignored" none
    [("choices", .jarr
      [.jobj [("message", .jobj [("content", .jstr "Hello!")])]])]
  have h4 := c7_amended_classification 200 "ignored" none
    [("choices", .jarr [])]
  refine ⟨?_, ?_, ?_, ?_⟩
  · exact h.2.2.2.1 (by omega) (by omega) (by omega)
      ("error", .jstr "bad model") rfl
  · exact h2.2.2.1 (by omega) (by omega) (by omega)
  · exact h3.2.2.2.2.2.2.2 (by omega)
      ("choices", .jarr
        [.jobj [("message", .jobj [("content", .jstr "Hello!")])]])
      (.jobj [("message", .jobj [("content", .jstr "Hello!")])]) []
      (.jobj [("content", .jstr "Hello!")]) (.jstr "Hello!") rfl rfl rfl rfl
  · exact h4.2.2.2.2.2.2.1 (by omega) ("choices", .jarr []) rfl rfl

/-- Claim C8: a parsed user configuration in which some recognized key
carries an invalid value fails validation, and `load_config` then
discards the entire user file: the result is exactly the built-in
default set (no per-key merge) and a warning is emitted. -/
theorem c8_invalid_value_discards_file (v : JVal)
    (h : hasInvalidRecognizedValue v = true) :
    validate_config v = false ∧
    load_config (.parsed v) = (DEFAULT_CONFIG, true) := by
  have hv : validate_config v = false := by
    cases v with
    | jobj fields =>
      simp only [hasInvalidRecognizedValue] at h
      simp only [validate_config]
      revert h
      generalize checkKey fields "timeout" positiveNumberOk = a
      generalize checkKey fields "max_file_size_mb" positiveNumberOk = b
      generalize checkKey fields "show_thinking_animation" isPyBool = c
      generalize checkKey fields "log_level" logLevelOk = d
      generalize checkKey fields "output_format" outputFormatOk = e
      cases a <;> cases b <;> cases c <;> cases d <;> cases e <;> decide
    | jnull => rfl
    | jbool b => rfl
    | jnum n => rfl
    | jstr s => rfl
    | jarr xs => rfl
  refine ⟨hv, ?_⟩
  simp [load_config, hv]

/-- Witness for C8 at a configuration with an invalid `log_level`. -/
theorem c8_witness :
    hasInvalidRecognizedValue (.jobj [("log_level", .jstr "verbose")]) = true ∧
    validate_config (.jobj [("log_level", .jstr "verbose")]) = false ∧
    load_config (.parsed (.jobj [("log_level", .jstr "verbose")])) =
      (DEFAULT_CONFIG, true) := by
  have h := c8_invalid_value_discards_file
    (.jobj [("log_level", .jstr "verbose")]) (by decide)
  exact ⟨by decide, h.1, h.2⟩

/-- Claim C9: whenever the provider API-key environment variable is unset
(or empty, which `if not api_key` also rejects), the provider stage of
`execute_query` exits with code 1, `send_query` is never invoked, and the
displayed error carries the remediation text explaining how to obtain and
export the key. -/
theorem c9_missing_api_key (envApiKey : Option String)
    (outcome : QueryOutcome)
    (h : envApiKey = none ∨ envApiKey = some "") :
    executeProviderStage "perplexity" envApiKey outcome =
      { exitCode := 1, sendQueryCalls := 0,
        displayedError := some MISSING_KEY_MSG } ∧
    pyContains MISSING_KEY_MSG "https://www.perplexity.ai/settings/api" = true ∧
    pyContains MISSING_KEY_MSG "export PERPLEXITY_API_KEY" = true := by
  refine ⟨?_, by decide, by decide⟩
  rcases h with h | h <;> subst h <;> rfl

/-- Witness for C9 with the variable unset. -/
theorem c9_witness :
    ((none : Option String) = none ∨ (none : Option String) = some "") ∧
    executeProviderStage "perplexity" none .requestFailedError =
      { exitCode := 1, sendQueryCalls := 0,
        displayedError := some MISSING_KEY_MSG } := by
  exact ⟨Or.inl rfl,
    (c9_missing_api_key none .requestFailedError (Or.inl rfl)).1⟩

theorem dictUpdate_keeps_base_keys (base upd : List (String × JVal))
    (key : String)
    (h : (base.find? (fun kv => kv.1 == key)).isSome) :
    ((dictUpdate base upd).find? (fun kv => kv.1 == key)).isSome := by
  unfold dictUpdate
  rw [List.find?_append, List.find?_map]
  have hcomp : ((fun kv : String × JVal => kv.1 == key) ∘
      (fun kv : String × JVal =>
        match upd.find? (fun kw => kw.1 == kv.1) with
        | some kw => (kv.1, kw.2)
        | none => kv)) = (fun kv : String × JVal => kv.1 == key) := by
    funext x
    cases hfind : upd.find? (fun kw => kw.1 == x.1) <;>
      simp [Function.comp, hfind]
  rw [hcomp]
  obtain ⟨a, ha⟩ := Option.isSome_iff_exists.mp h
  rw [ha]
  rfl

/-- Claim C10: `load_config` is total — in every configuration-file state
it returns a mapping (no exception escapes), every failure path returns
exactly the built-in defaults, and every default key is present in the
returned mapping. -/
theorem c10_load_config_total (st : ConfigFileState) :
    ((load_config st).1 = DEFAULT_CONFIG ∨
      ∃ v, st = .parsed v ∧ validate_config v = true ∧
        (load_config st).1 = merge_with_defaults (jObjFields v)) ∧
    (∀ key, (DEFAULT_CONFIG.find? (fun kv => kv.1 == key)).isSome →
      ((load_config st).1.find? (fun kv => kv.1 == key)).isSome) := by
  constructor
  · cases st with
    | absent => left; rfl
    | unreadable => left; rfl
    | malformedJson => left; rfl
    | parsed v =>
      by_cases hv : validate_config v = true
      · right; exact ⟨v, rfl, hv, by simp [load_config, hv]⟩
      · have hv2 : validate_config v = false := by simpa using hv
        left
        simp [load_config, hv2]
  · intro key hk
    cases st with
    | absent => exact hk
    | unreadable => exact hk
    | malformedJson => exact hk
    | parsed v =>
      by_cases hv : validate_config v = true
      · have hres : (load_config (.parsed v)).1 =
            merge_with_defaults (jObjFields v) := by simp [load_config, hv]
        rw [hres]
        exact dictUpdate_keeps_base_keys DEFAULT_CONFIG (jObjFields v) key hk
      · have hv2 : validate_config v = false := by simpa using hv
        have hres : (load_config (.parsed v)).1 = DEFAULT_CONFIG := by
          simp [load_config, hv2]
        rw [hres]
        exact hk

/-- Witness for C10 at a valid partial configuration: the merged result
still carries every default key. -/
theorem c10_witness :
    ((load_config (.parsed (.jobj [("timeout", .jnum 5)]))).1.find?
      (fun kv => kv.1 == "log_level")).isSome := by
  exact (c10_load_config_total
    (.parsed (.jobj [("timeout", .jnum 5)]))).2 "log_level" (by decide)

end SmartTerm
